import Mathlib

/-!
Verification of the "House of Plants" authentication flow
(src/routes/auth.js, src/app.js) against its natural-language
specification.

The three route handlers (POST /auth/signup, POST /auth/login,
GET /auth/logout) are embedded as pure Lean functions over an explicit
state: the user database is a list of User records, the session is an
explicit value threaded in and out, and every way a handler can finish
(render a view, redirect, raise an exception, forward to the error
middleware) is a constructor of a Response type.  External collaborators
(bcryptjs, the mongoose persistence verdict at User.create, the session
store's destroy callback, the mail transporter) are modelled by explicit
parameters or by small deterministic functions that satisfy the
contracts the code relies on.
-/

namespace HouseOfPlants

/-- A form field as delivered in req.body: absent (undefined) or a string. -/
abbrev Field := Option String

/-- JavaScript truthiness of a form field: undefined and the empty string
are falsy, every other string is truthy. -/
def truthy : Field → Bool
  | none => false
  | some s => s != ""

/-- Modelled external collaborator (bcryptjs): bcrypt.genSalt(rounds).
Deterministic stand-in for the random salt; the code only relies on a salt
being produced and threaded into the hash. -/
def bcryptGenSalt (rounds : Nat) : String :=
  "$2a$" ++ toString rounds ++ "$salt"

/-- Modelled external collaborator (bcryptjs): bcrypt.hash(password, salt).
A salted one-way hash; the model keeps the contract the code relies on:
hashing is injective per salt and the digest differs from the plaintext. -/
def bcryptHash (password salt : String) : String :=
  salt ++ "." ++ password

/-- auth.js line 8: how many rounds bcrypt runs the salt. -/
def saltRounds : Nat := 10

/-- Modelled external collaborator (bcryptjs): bcrypt.compare(password, hash)
succeeds exactly when the hash is the salted hash of the password. -/
def bcryptCompare (password hash : String) : Bool :=
  hash == bcryptHash password (bcryptGenSalt saltRounds)

/-- The structured location attribute built at auth.js lines 114-117:
a GeoJSON-style point whose coordinates are the raw [longitude, latitude]
form values. -/
structure GeoPoint where
  type : String
  coordinates : Field × Field
  deriving Repr, DecidableEq

/-- The User record as created by the signup handler (auth.js lines 108-119). -/
structure User where
  username : String
  password : String
  email : String
  name : String
  berlinBorough : Field
  location : GeoPoint
  profilePicture : String
  deriving Repr, DecidableEq

/-- The User Store contents. -/
abbrev DB := List User

/-- auth.js line 85: User.findOne with an or-query on username and email. -/
def findOneByUsernameOrEmail (db : DB) (un em : String) : Option User :=
  db.find? (fun u => u.username == un || u.email == em)

/-- auth.js line 188: User.findOne on username alone. -/
def findOneByUsername (db : DB) (un : String) : Option User :=
  db.find? (fun u => u.username == un)

/-- The view context handed to res.render.  Every key any render in
auth.js sets is a field; fields a given render does not set stay none
(the static template data berlinBoroughs / containsMap, identical on every
signup render, is not part of the per-request context modelled here). -/
structure ViewCtx where
  errorMessage : Option String := none
  username : Field := none
  password : Field := none
  email : Field := none
  name : Field := none
  berlinBorough : Field := none
  latitude : Field := none
  longitude : Field := none
  deriving Repr, DecidableEq

/-- How a handler invocation finishes: a rendered view with an HTTP status,
a redirect, an exception escaping the handler (or rejecting an unhandled
promise), or a call to next(err) forwarding to the error middleware. -/
inductive Response where
  | render (view : String) (status : Nat) (ctx : ViewCtx)
  | redirect (path : String)
  | thrown (err : String)
  | nextCall (err : String)
  deriving Repr, DecidableEq

/-- The verdict of the persistence layer for the bcrypt.genSalt /
bcrypt.hash / User.create chain (auth.js lines 103-120), as classified by
the catch at lines 135-150: success, a mongoose ValidationError, a
duplicate-key rejection (error.code === 11000), or any other failure. -/
inductive CreateOutcome where
  | ok
  | validationError (msg : String)
  | duplicateKey
  | otherError (msg : String)
  deriving Repr, DecidableEq

/-- The signup form fields destructured at auth.js lines 33-42. -/
structure SignupForm where
  username : Field := none
  password : Field := none
  email : Field := none
  name : Field := none
  berlinBorough : Field := none
  location : Field := none
  latitude : Field := none
  longitude : Field := none
  deriving Repr, DecidableEq

/-- Everything a signup invocation produces: the response, the resulting
User Store, the session user after the handler, and which effects ran. -/
structure SignupResult where
  response : Response
  db : DB
  sessionUser : Option User
  didFindOne : Bool := false
  didHash : Bool := false
  didCreate : Bool := false
  mailSent : Bool := false
  deriving Repr, DecidableEq

/-- POST /auth/signup (auth.js lines 32-152).

Faithful to the source, including its two slips:
* line 59 reads password.length, so an absent password (undefined) raises
  a TypeError that escapes the handler;
* lines 88-100 build the duplicate-user render context naming the
  undeclared variable newsletter, so that branch raises a ReferenceError
  inside a promise chain that has no catch (the request never gets a
  response).

The create parameter is the persistence verdict for the salt/hash/create
chain; mailFails is whether the fire-and-forget transporter.sendMail
promise rejects (the handler never inspects it). -/
def signup (db : DB) (sess : Option User) (f : SignupForm)
    (create : CreateOutcome) (mailFails : Bool) : SignupResult :=
  if !truthy f.username || !truthy f.name || !truthy f.email then
    { response := .render "auth/signup" 400
        { errorMessage := some "Please fill in all required fields."
          username := f.username, password := f.password, email := f.email
          name := f.name, berlinBorough := f.berlinBorough
          latitude := f.latitude, longitude := f.longitude }
      db := db, sessionUser := sess }
  else
    match f.password with
    | none =>
      { response := .thrown "TypeError: Cannot read properties of undefined (reading 'length')"
        db := db, sessionUser := sess }
    | some pw =>
      if pw.length < 8 then
        { response := .render "auth/signup" 400
            { errorMessage := some "Your password needs to be at least 8 characters long."
              username := f.username, password := f.password, email := f.email
              name := f.name, berlinBorough := f.berlinBorough
              latitude := f.latitude, longitude := f.longitude }
          db := db, sessionUser := sess }
      else
        match findOneByUsernameOrEmail db (f.username.getD "") (f.email.getD "") with
        | some _ =>
          { response := .thrown "ReferenceError: newsletter is not defined"
            db := db, sessionUser := sess, didFindOne := true }
        | none =>
          match create with
          | .ok =>
            let user : User :=
              { username := f.username.getD ""
                password := bcryptHash pw (bcryptGenSalt saltRounds)
                email := f.email.getD ""
                name := f.name.getD ""
                berlinBorough := f.berlinBorough
                location := { type := "Point", coordinates := (f.longitude, f.latitude) }
                profilePicture := "/images/default-profile-picture.png" }
            { response := .redirect "/", db := db ++ [user]
              sessionUser := some user, didFindOne := true
              didHash := true, didCreate := true, mailSent := true }
          | .validationError msg =>
            { response := .render "auth/signup" 400 { errorMessage := some msg }
              db := db, sessionUser := sess, didFindOne := true
              didHash := true, didCreate := true }
          | .duplicateKey =>
            { response := .render "signup" 400
                { errorMessage := some "Username and email need to be unique. The username/email you entered is already in use." }
              db := db, sessionUser := sess, didFindOne := true
              didHash := true, didCreate := true }
          | .otherError msg =>
            { response := .render "auth/signup" 500 { errorMessage := some msg }
              db := db, sessionUser := sess, didFindOne := true
              didHash := true, didCreate := true }

/-- The login form fields destructured at auth.js line 159. -/
structure LoginForm where
  username : Field := none
  password : Field := none
  deriving Repr, DecidableEq

/-- Everything a login invocation produces. -/
structure LoginResult where
  response : Response
  sessionUser : Option User
  didFindOne : Bool := false
  deriving Repr, DecidableEq

/-- POST /auth/login (auth.js lines 158-216).

Faithful to the source, including the slip at line 161: the first guard
tests (!password && !password) instead of (!username && !password), so a
missing password always takes the generic both-fields branch and the
dedicated password-missing branch at line 173 is unreachable. -/
def login (db : DB) (sess : Option User) (f : LoginForm) : LoginResult :=
  if !truthy f.password && !truthy f.password then
    { response := .render "auth/login" 400
        { errorMessage := some "Please provide your username and password." }
      sessionUser := sess }
  else if !truthy f.username then
    { response := .render "auth/login" 400
        { errorMessage := some "Please provide your username." }
      sessionUser := sess }
  else if !truthy f.password then
    { response := .render "auth/login" 400
        { errorMessage := some "Please provide your password." }
      sessionUser := sess }
  else
    match f.password with
    | none =>
      { response := .thrown "TypeError: Cannot read properties of undefined (reading 'length')"
        sessionUser := sess }
    | some pw =>
      if pw.length < 8 then
        { response := .render "auth/login" 400
            { errorMessage := some "Your password needs to be at least 8 characters long." }
          sessionUser := sess }
      else
        match findOneByUsername db (f.username.getD "") with
        | none =>
          { response := .render "auth/login" 400
              { errorMessage := some "Wrong credentials." }
            sessionUser := sess, didFindOne := true }
        | some user =>
          if bcryptCompare pw user.password then
            { response := .redirect "/", sessionUser := some user, didFindOne := true }
          else
            { response := .render "auth/login" 400
                { errorMessage := some "Wrong credentials." }
              sessionUser := sess, didFindOne := true }

/-- A session record held by the Session Store (holds the snapshot of the
authenticated user, or none for an anonymous session). -/
structure SessRec where
  user : Option User := none
  deriving Repr, DecidableEq

/-- The Session Store: session-identifier keyed records. -/
abbrev SessionStore := List (String × SessRec)

/-- req.session.destroy removes the whole record for the identifier from
the store (not merely its user field). -/
def sessionDestroy (store : SessionStore) (sid : String) : SessionStore :=
  store.filter (fun p => p.1 != sid)

/-- What a session identifier resolves to on a later request: the user of
its record, if the record still exists. -/
def resolveSessionUser (store : SessionStore) (sid : String) : Option User :=
  match store.lookup sid with
  | none => none
  | some r => r.user

/-- Everything a logout invocation produces. -/
structure LogoutResult where
  response : Response
  store : SessionStore
  deriving Repr, DecidableEq

/-- GET /auth/logout (auth.js lines 218-227): destroy the session; on a
destruction error render a 500 with the failure message, else redirect
home.  destroyErr is the err value the store passes to the callback. -/
def logout (store : SessionStore) (sid : String) (destroyErr : Option String) :
    LogoutResult :=
  match destroyErr with
  | some msg =>
    { response := .render "auth/logout" 500 { errorMessage := some msg }
      store := store }
  | none =>
    { response := .redirect "/", store := sessionDestroy store sid }

/-- app.js lines 28-33: the middleware that copies req.session.user into
res.locals.user (the session-derived view context visible to every
rendered response) whenever a session user is present. -/
def resLocalsUser (sessionUser : Option User) : Option User :=
  match sessionUser with
  | some u => some u
  | none => none

/-! Helper lemmas shared by the claim theorems. -/

/-- The salted hash never equals the plaintext password. -/
theorem bcryptHash_ne_plaintext (pw salt : String) : bcryptHash pw salt ≠ pw := by
  intro h
  have hlen : (bcryptHash pw salt).length = pw.length := congrArg String.length h
  rw [bcryptHash, String.length_append, String.length_append] at hlen
  have hdot : ("." : String).length = 1 := rfl
  omega

/-- If the or-query on username and email finds nothing, the query on the
username alone finds nothing either. -/
theorem findOneByUsername_of_or_none (db : DB) (un em : String)
    (h : findOneByUsernameOrEmail db un em = none) :
    findOneByUsername db un = none := by
  rw [findOneByUsernameOrEmail, List.find?_eq_none] at h
  rw [findOneByUsername, List.find?_eq_none]
  intro u hu
  have := h u hu
  simp only [Bool.or_eq_true, not_or] at this
  exact this.1

/-- Appending a user with the sought username to a store where the lookup
failed makes the lookup return exactly that user. -/
theorem findOneByUsername_append_self (db : DB) (u : User) (un : String)
    (hnone : findOneByUsername db un = none) (hu : u.username = un) :
    findOneByUsername (db ++ [u]) un = some u := by
  rw [findOneByUsername] at hnone ⊢
  rw [List.find?_append, hnone]
  simp [hu]

/-- The branch of signup taken when a required field is missing
(auth.js lines 44-57). -/
theorem signup_missing_required (db : DB) (sess : Option User) (f : SignupForm)
    (create : CreateOutcome) (mailFails : Bool)
    (h : truthy f.username = false ∨ truthy f.name = false ∨ truthy f.email = false) :
    signup db sess f create mailFails =
      { response := .render "auth/signup" 400
          { errorMessage := some "Please fill in all required fields."
            username := f.username, password := f.password, email := f.email
            name := f.name, berlinBorough := f.berlinBorough
            latitude := f.latitude, longitude := f.longitude }
        db := db, sessionUser := sess } := by
  unfold signup
  rcases h with h | h | h <;> simp [h]

/-- The branch of signup taken when the password is present but shorter
than 8 characters (auth.js lines 59-72). -/
theorem signup_short_password (db : DB) (sess : Option User) (f : SignupForm)
    (create : CreateOutcome) (mailFails : Bool) (pw : String)
    (hu : truthy f.username = true) (hn : truthy f.name = true)
    (he : truthy f.email = true) (hp : f.password = some pw)
    (hlen : pw.length < 8) :
    signup db sess f create mailFails =
      { response := .render "auth/signup" 400
          { errorMessage := some "Your password needs to be at least 8 characters long."
            username := f.username, password := f.password, email := f.email
            name := f.name, berlinBorough := f.berlinBorough
            latitude := f.latitude, longitude := f.longitude }
        db := db, sessionUser := sess } := by
  unfold signup
  simp [hu, hn, he, hp, hlen]

/-- After a destroy, the destroyed identifier has no record in the store. -/
theorem lookup_sessionDestroy (store : SessionStore) (sid : String) :
    (sessionDestroy store sid).lookup sid = none := by
  rw [List.lookup_eq_none_iff]
  intro p hp
  rw [sessionDestroy, List.mem_filter] at hp
  have h2 : p.1 ≠ sid := by simpa using hp.2
  simpa using Ne.symm h2

/-! Concrete inputs used by the closed theorems below. -/

/-- A user as the signup handler would have stored it for the password
"password1". -/
def alice : User :=
  { username := "alice"
    password := bcryptHash "password1" (bcryptGenSalt saltRounds)
    email := "alice@plants.example"
    name := "Alice"
    berlinBorough := none
    location := { type := "Point", coordinates := (none, none) }
    profilePicture := "/images/default-profile-picture.png" }

/-- A fully valid signup form for a fresh user. -/
def bobForm : SignupForm :=
  { username := some "bob", password := some "gardenia88"
    email := some "bob@plants.example", name := some "Bob" }

/-- A signup form reusing alice's username with a different email. -/
def aliceDupForm : SignupForm :=
  { username := some "alice", password := some "password1"
    email := some "other@plants.example", name := some "Alice" }

/-- A signup form with every required field present but no password field. -/
def noPasswordForm : SignupForm :=
  { username := some "carol", email := some "carol@plants.example"
    name := some "Carol" }

/-- C1.  The claim says a signup whose username or email matches an
existing user is answered by a 400 render of the signup view with the
message "Username or email already taken".  The code does reach that
branch and creates no duplicate, but the render context at auth.js line 99
names the undeclared variable newsletter, so the branch raises a
ReferenceError inside a promise chain with no catch instead of rendering:
with alice already stored, a signup reusing her username leaves the store
unchanged and ends in the ReferenceError, not the specified render. -/
theorem C1_duplicate_signup_crashes_not_renders :
    (signup [alice] none aliceDupForm .ok false).response =
      .thrown "ReferenceError: newsletter is not defined" ∧
    (signup [alice] none aliceDupForm .ok false).db = [alice] ∧
    (signup [alice] none aliceDupForm .ok false).sessionUser = none ∧
    (signup [alice] none aliceDupForm .ok false).didCreate = false := by
  refine ⟨rfl, rfl, rfl, rfl⟩

/-- C2.  The claim says every signup and login submission ends in a render
or a redirect, with validation failures recovered locally.  A signup whose
username, name and email are present but whose password field is absent is
a plain validation failure, yet auth.js line 59 evaluates password.length
on undefined, so the handler raises a TypeError that propagates out
instead of re-rendering the form. -/
theorem C2_missing_password_signup_throws :
    (signup [] none noPasswordForm .ok false).response =
      .thrown "TypeError: Cannot read properties of undefined (reading 'length')" ∧
    (signup [] none noPasswordForm .ok false).db = [] := by
  exact ⟨rfl, rfl⟩

/-- C3.  The claim says a login with the username present and the password
missing is answered with the password-specific prompt.  Because auth.js
line 161 tests (!password && !password) instead of (!username &&
!password), such a submission takes the generic both-fields branch, and
the dedicated password branch at line 173 is dead code: with username
"alice" and no password the rendered message is the generic prompt. -/
theorem C3_missing_password_login_gets_generic_prompt :
    (login [] none { username := some "alice" }).response =
      .render "auth/login" 400
        { errorMessage := some "Please provide your username and password." } := by
  rfl

/-- C8.  Every signup submission missing username, name, or email is
answered with a 400 re-render of the signup view carrying the
all-required-fields message and the entered field values; the store is
untouched (no lookup, no hash, no create), and no user is bound to the
session. -/
theorem C8_signup_missing_required_fields (db : DB) (sess : Option User)
    (f : SignupForm) (create : CreateOutcome) (mailFails : Bool)
    (h : truthy f.username = false ∨ truthy f.name = false ∨ truthy f.email = false) :
    (signup db sess f create mailFails).response =
      .render "auth/signup" 400
        { errorMessage := some "Please fill in all required fields."
          username := f.username, password := f.password, email := f.email
          name := f.name, berlinBorough := f.berlinBorough
          latitude := f.latitude, longitude := f.longitude } ∧
    (signup db sess f create mailFails).db = db ∧
    (signup db sess f create mailFails).sessionUser = sess ∧
    (signup db sess f create mailFails).didFindOne = false ∧
    (signup db sess f create mailFails).didHash = false ∧
    (signup db sess f create mailFails).didCreate = false := by
  rw [signup_missing_required db sess f create mailFails h]
  exact ⟨rfl, rfl, rfl, rfl, rfl, rfl⟩

/-- A signup form with the email field missing. -/
def doraForm : SignupForm :=
  { username := some "dora", password := some "longenough", name := some "Dora" }

/-- C8 witness: a concrete signup with the email missing takes the
required-fields branch and performs no store operation. -/
theorem C8_signup_missing_required_fields_witness :
    (signup [] none doraForm .ok false).response =
      .render "auth/signup" 400
        { errorMessage := some "Please fill in all required fields."
          username := some "dora", password := some "longenough"
          name := some "Dora" } ∧
    (signup [] none doraForm .ok false).db = [] ∧
    (signup [] none doraForm .ok false).sessionUser = none ∧
    (signup [] none doraForm .ok false).didFindOne = false ∧
    (signup [] none doraForm .ok false).didHash = false ∧
    (signup [] none doraForm .ok false).didCreate = false :=
  C8_signup_missing_required_fields [] none doraForm .ok false (Or.inr (Or.inr rfl))

/-- C9.  Every logout request reaching the handler either renders a 500
with the destruction failure message (store untouched) or, on success,
redirects home with the whole session record removed from the store, so
the former identifier no longer resolves to an authenticated user. -/
theorem C9_logout_destroys_session (store : SessionStore) (sid : String) :
    (∀ msg, (logout store sid (some msg)).response =
        .render "auth/logout" 500 { errorMessage := some msg } ∧
      (logout store sid (some msg)).store = store) ∧
    (logout store sid none).response = .redirect "/" ∧
    ((logout store sid none).store).lookup sid = none ∧
    resolveSessionUser (logout store sid none).store sid = none := by
  refine ⟨fun msg => ⟨rfl, rfl⟩, rfl, lookup_sessionDestroy store sid, ?_⟩
  rw [show (logout store sid none).store = sessionDestroy store sid from rfl,
    resolveSessionUser, lookup_sessionDestroy store sid]

/-- C10.  At the form interface, empty strings take the same error
branches as absent fields: an empty username, name, or email on signup
takes the all-required-fields 400 branch; an empty password (other fields
truthy) takes the 400 length branch on signup and the 400 generic branch
on login, all before any store operation, creating no record and binding
no session user. -/
theorem C10_empty_string_fields (db : DB) (sess : Option User)
    (f : SignupForm) (create : CreateOutcome) (mailFails : Bool) (lf : LoginForm) :
    (f.username = some "" ∨ f.name = some "" ∨ f.email = some "" →
      (signup db sess f create mailFails).response =
        .render "auth/signup" 400
          { errorMessage := some "Please fill in all required fields."
            username := f.username, password := f.password, email := f.email
            name := f.name, berlinBorough := f.berlinBorough
            latitude := f.latitude, longitude := f.longitude } ∧
      (signup db sess f create mailFails).db = db ∧
      (signup db sess f create mailFails).sessionUser = sess ∧
      (signup db sess f create mailFails).didFindOne = false ∧
      (signup db sess f create mailFails).didCreate = false) ∧
    (truthy f.username = true → truthy f.name = true → truthy f.email = true →
      f.password = some "" →
      (signup db sess f create mailFails).response =
        .render "auth/signup" 400
          { errorMessage := some "Your password needs to be at least 8 characters long."
            username := f.username, password := f.password, email := f.email
            name := f.name, berlinBorough := f.berlinBorough
            latitude := f.latitude, longitude := f.longitude } ∧
      (signup db sess f create mailFails).db = db ∧
      (signup db sess f create mailFails).sessionUser = sess ∧
      (signup db sess f create mailFails).didFindOne = false ∧
      (signup db sess f create mailFails).didCreate = false) ∧
    (lf.password = some "" →
      (login db sess lf).response =
        .render "auth/login" 400
          { errorMessage := some "Please provide your username and password." } ∧
      (login db sess lf).sessionUser = sess ∧
      (login db sess lf).didFindOne = false) := by
  refine ⟨?_, ?_, ?_⟩
  · intro h
    have ht : truthy f.username = false ∨ truthy f.name = false ∨ truthy f.email = false := by
      rcases h with h | h | h
      · exact Or.inl (by rw [h]; rfl)
      · exact Or.inr (Or.inl (by rw [h]; rfl))
      · exact Or.inr (Or.inr (by rw [h]; rfl))
    rw [signup_missing_required db sess f create mailFails ht]
    exact ⟨rfl, rfl, rfl, rfl, rfl⟩
  · intro hu hn he hp
    rw [signup_short_password db sess f create mailFails "" hu hn he hp
      (by decide)]
    exact ⟨rfl, rfl, rfl, rfl, rfl⟩
  · intro hp
    unfold login
    simp [truthy, hp]

/-- C5.  For every well-formed login (username present, password at least
8 characters), an unknown username and a wrong password produce the very
same response: a 400 render of the login view with the generic message
"Wrong credentials.", and the session user is unchanged, so the two
failure causes are indistinguishable from the response. -/
theorem C5_wrong_credentials_indistinguishable (db : DB) (sess : Option User)
    (un pw : String) (hun : un ≠ "") (hpw : 8 ≤ pw.length)
    (hcause : findOneByUsername db un = none ∨
      ∃ u, findOneByUsername db un = some u ∧ bcryptCompare pw u.password = false) :
    (login db sess { username := some un, password := some pw }).response =
      .render "auth/login" 400 { errorMessage := some "Wrong credentials." } ∧
    (login db sess { username := some un, password := some pw }).sessionUser = sess := by
  have hpw' : pw ≠ "" := by
    intro h
    rw [h] at hpw
    simp at hpw
  have hlt : ¬pw.length < 8 := Nat.not_lt.mpr hpw
  unfold login
  rcases hcause with h | ⟨u, hu, hc⟩
  · simp [truthy, hun, hpw', hlt, h]
  · simp [truthy, hun, hpw', hlt, hu, hc]

/-- C5 witness: with alice stored, a login with her username and a wrong
password is answered exactly like a login would be for an unknown user. -/
theorem C5_wrong_credentials_indistinguishable_witness :
    (login [alice] none { username := some "alice", password := some "wrongpass1" }).response =
      .render "auth/login" 400 { errorMessage := some "Wrong credentials." } ∧
    (login [alice] none { username := some "alice", password := some "wrongpass1" }).sessionUser =
      none :=
  C5_wrong_credentials_indistinguishable [alice] none "alice" "wrongpass1"
    (by decide) (by decide) (Or.inr ⟨alice, rfl, rfl⟩)

/-- C7.  Every signup that passes the required-field, password-length and
uniqueness checks and whose create the persistence layer accepts: stores a
user whose password field is the salted hash (never the plaintext), whose
location folds the raw longitude/latitude form values into a structured
point, and whose profile picture is the default path; binds that user to
the session; marks the welcome mail as sent; redirects home; and the
outcome is independent of whether the unawaited mail promise fails. -/
theorem C7_successful_signup (db : DB) (sess : Option User)
    (un em nm pw : String) (bb loc lat lng : Field) (mailFails : Bool)
    (hun : un ≠ "") (hem : em ≠ "") (hnm : nm ≠ "") (hpw : 8 ≤ pw.length)
    (hfree : findOneByUsernameOrEmail db un em = none) :
    let f : SignupForm :=
      { username := some un, password := some pw, email := some em
        name := some nm, berlinBorough := bb, location := loc
        latitude := lat, longitude := lng }
    let u : User :=
      { username := un, password := bcryptHash pw (bcryptGenSalt saltRounds)
        email := em, name := nm, berlinBorough := bb
        location := { type := "Point", coordinates := (lng, lat) }
        profilePicture := "/images/default-profile-picture.png" }
    signup db sess f .ok mailFails =
      { response := .redirect "/", db := db ++ [u], sessionUser := some u
        didFindOne := true, didHash := true, didCreate := true, mailSent := true } ∧
    u.password ≠ pw ∧
    signup db sess f .ok true = signup db sess f .ok false := by
  intro f u
  have hlt : ¬pw.length < 8 := Nat.not_lt.mpr hpw
  refine ⟨?_, bcryptHash_ne_plaintext pw (bcryptGenSalt saltRounds), rfl⟩
  unfold signup
  simp [truthy, hun, hem, hnm, hlt, f, hfree]

/-- C7 witness: the concrete signup of bob stores the hash, binds the
session, sends the mail and redirects home. -/
theorem C7_successful_signup_witness :
    signup [] none bobForm .ok false =
      { response := .redirect "/"
        db := [{ username := "bob"
                 password := bcryptHash "gardenia88" (bcryptGenSalt saltRounds)
                 email := "bob@plants.example", name := "Bob"
                 berlinBorough := none
                 location := { type := "Point", coordinates := (none, none) }
                 profilePicture := "/images/default-profile-picture.png" }]
        sessionUser := some
          { username := "bob"
            password := bcryptHash "gardenia88" (bcryptGenSalt saltRounds)
            email := "bob@plants.example", name := "Bob"
            berlinBorough := none
            location := { type := "Point", coordinates := (none, none) }
            profilePicture := "/images/default-profile-picture.png" }
        didFindOne := true, didHash := true, didCreate := true
        mailSent := true } ∧
    bcryptHash "gardenia88" (bcryptGenSalt saltRounds) ≠ "gardenia88" :=
  ⟨(C7_successful_signup [] none "bob" "bob@plants.example" "Bob" "gardenia88"
      none none none none false (by decide) (by decide) (by decide) (by decide)
      rfl).1,
   (C7_successful_signup [] none "bob" "bob@plants.example" "Bob" "gardenia88"
      none none none none false (by decide) (by decide) (by decide) (by decide)
      rfl).2.1⟩

/-- C4 counterexample.  The claim says a login after signup binds only
the user's public fields, never the password hash, into the
session-derived view context.  In fact the handler stores the whole user
record on the session (auth.js line 204) and app.js copies it verbatim
into res.locals: after signing bob up and logging him in, the view
context's user carries exactly the stored bcrypt hash in its password
field. -/
theorem C4_view_context_contains_hash :
    (login (signup [] none bobForm .ok false).db none
        { username := some "bob", password := some "gardenia88" }).response =
      .redirect "/" ∧
    (resLocalsUser (login (signup [] none bobForm .ok false).db none
        { username := some "bob", password := some "gardenia88" }).sessionUser).map
        User.password =
      some (bcryptHash "gardenia88" (bcryptGenSalt saltRounds)) := by
  exact ⟨rfl, rfl⟩

/-- C4 amended.  For every user created via signup with a password of
length at least 8 (username and email fresh in the store), a subsequent
login with that username and password succeeds, redirects home, and binds
the created user's ENTIRE record — its public fields together with the
password hash — into the session-derived view context visible to
responses. -/
theorem C4_roundtrip_binds_full_record (db : DB) (sess sess2 : Option User)
    (un em nm pw : String) (bb loc lat lng : Field) (mailFails : Bool)
    (hun : un ≠ "") (hem : em ≠ "") (hnm : nm ≠ "") (hpw : 8 ≤ pw.length)
    (hfree : findOneByUsernameOrEmail db un em = none) :
    let f : SignupForm :=
      { username := some un, password := some pw, email := some em
        name := some nm, berlinBorough := bb, location := loc
        latitude := lat, longitude := lng }
    let u : User :=
      { username := un, password := bcryptHash pw (bcryptGenSalt saltRounds)
        email := em, name := nm, berlinBorough := bb
        location := { type := "Point", coordinates := (lng, lat) }
        profilePicture := "/images/default-profile-picture.png" }
    login (signup db sess f .ok mailFails).db sess2
        { username := some un, password := some pw } =
      { response := .redirect "/", sessionUser := some u, didFindOne := true } ∧
    resLocalsUser (login (signup db sess f .ok mailFails).db sess2
        { username := some un, password := some pw }).sessionUser = some u ∧
    u.password = bcryptHash pw (bcryptGenSalt saltRounds) := by
  intro f u
  have hlt : ¬pw.length < 8 := Nat.not_lt.mpr hpw
  have hpw' : pw ≠ "" := by
    intro h
    rw [h] at hpw
    simp at hpw
  have hdb : (signup db sess f .ok mailFails).db = db ++ [u] := by
    unfold signup
    simp [truthy, hun, hem, hnm, hlt, f, hfree]
  have hfind : findOneByUsername (db ++ [u]) un = some u :=
    findOneByUsername_append_self db u un
      (findOneByUsername_of_or_none db un em hfree) rfl
  have hlogin : login (signup db sess f .ok mailFails).db sess2
      { username := some un, password := some pw } =
      { response := .redirect "/", sessionUser := some u, didFindOne := true } := by
    rw [hdb]
    unfold login
    simp [truthy, hun, hpw', hlt, hfind, bcryptCompare, u]
  refine ⟨hlogin, ?_, rfl⟩
  rw [hlogin]
  rfl

/-- C4 witness: the concrete bob round trip, with the full record (hash
included) bound into the view context. -/
theorem C4_roundtrip_binds_full_record_witness :
    (login (signup [] none bobForm .ok false).db none
        { username := some "bob", password := some "gardenia88" }).sessionUser ≠ none ∧
    resLocalsUser (login (signup [] none bobForm .ok false).db none
        { username := some "bob", password := some "gardenia88" }).sessionUser =
      some { username := "bob"
             password := bcryptHash "gardenia88" (bcryptGenSalt saltRounds)
             email := "bob@plants.example", name := "Bob"
             berlinBorough := none
             location := { type := "Point", coordinates := (none, none) }
             profilePicture := "/images/default-profile-picture.png" } := by
  have h := C4_roundtrip_binds_full_record [] none none "bob" "bob@plants.example"
    "Bob" "gardenia88" none none none none false (by decide) (by decide)
    (by decide) (by decide) rfl
  refine ⟨?_, h.2.1⟩
  rw [show (login (signup [] none bobForm .ok false).db none
      { username := some "bob", password := some "gardenia88" }).sessionUser =
      _ from congrArg LoginResult.sessionUser h.1]
  simp

/-- C6 counterexample.  The claim says a duplicate-key rejection at the
create is rendered back to the signup view.  The code does render a 400
with the uniqueness message, but names the view "signup" (auth.js line
142), not the "auth/signup" template every other signup branch renders. -/
theorem C6_duplicate_key_renders_other_view :
    (signup [] none bobForm .duplicateKey false).response =
      .render "signup" 400
        { errorMessage := some "Username and email need to be unique. The username/email you entered is already in use." } ∧
    ("signup" : String) ≠ "auth/signup" := by
  exact ⟨rfl, by decide⟩

/-- C6 amended.  When the persistence layer rejects the create with a
duplicate-key error, the handler renders a 400 with the already-taken
uniqueness message (to the view name "signup" rather than the
"auth/signup" template) and the store is unchanged; a mongoose validation
error also renders a 400; only other unexpected failures render a 500. -/
theorem C6_create_failure_classification (db : DB) (sess : Option User)
    (un em nm pw : String) (bb loc lat lng : Field) (mailFails : Bool)
    (hun : un ≠ "") (hem : em ≠ "") (hnm : nm ≠ "") (hpw : 8 ≤ pw.length)
    (hfree : findOneByUsernameOrEmail db un em = none) :
    let f : SignupForm :=
      { username := some un, password := some pw, email := some em
        name := some nm, berlinBorough := bb, location := loc
        latitude := lat, longitude := lng }
    (signup db sess f .duplicateKey mailFails).response =
      .render "signup" 400
        { errorMessage := some "Username and email need to be unique. The username/email you entered is already in use." } ∧
    (signup db sess f .duplicateKey mailFails).db = db ∧
    (signup db sess f .duplicateKey mailFails).sessionUser = sess ∧
    (∀ msg, (signup db sess f (.validationError msg) mailFails).response =
      .render "auth/signup" 400 { errorMessage := some msg }) ∧
    (∀ msg, (signup db sess f (.otherError msg) mailFails).response =
      .render "auth/signup" 500 { errorMessage := some msg }) := by
  intro f
  have hlt : ¬pw.length < 8 := Nat.not_lt.mpr hpw
  refine ⟨?_, ?_, ?_, fun msg => ?_, fun msg => ?_⟩ <;>
    · unfold signup
      simp [truthy, hun, hem, hnm, hlt, f, hfree]

/-- C6 witness: bob's signup with an injected duplicate-key verdict
renders the 400 uniqueness message; an injected unexpected failure
renders a 500 with its message. -/
theorem C6_create_failure_classification_witness :
    (signup [] none bobForm .duplicateKey false).db = [] ∧
    (signup [] none bobForm (.otherError "connection lost") false).response =
      .render "auth/signup" 500 { errorMessage := some "connection lost" } := by
  have h := C6_create_failure_classification [] none "bob" "bob@plants.example"
    "Bob" "gardenia88" none none none none false (by decide) (by decide)
    (by decide) (by decide) rfl
  exact ⟨h.2.1, h.2.2.2.2 "connection lost"⟩

/-- A signup form whose username is the empty string. -/
def emptyUsernameForm : SignupForm :=
  { username := some "", password := some "longpass88"
    email := some "erin@plants.example", name := some "Erin" }

/-- A signup form whose password is the empty string. -/
def emptyPasswordForm : SignupForm :=
  { username := some "erin", password := some ""
    email := some "erin@plants.example", name := some "Erin" }

/-- C10 witness: an empty username takes the required-fields branch, an
empty password takes the length branch on signup and the generic branch
on login. -/
theorem C10_empty_string_fields_witness :
    (signup [] none emptyUsernameForm .ok false).response =
      .render "auth/signup" 400
        { errorMessage := some "Please fill in all required fields."
          username := some "", password := some "longpass88"
          email := some "erin@plants.example", name := some "Erin" } ∧
    (signup [] none emptyPasswordForm .ok false).response =
      .render "auth/signup" 400
        { errorMessage := some "Your password needs to be at least 8 characters long."
          username := some "erin", password := some ""
          email := some "erin@plants.example", name := some "Erin" } ∧
    (login [] none { username := some "erin", password := some "" }).response =
      .render "auth/login" 400
        { errorMessage := some "Please provide your username and password." } :=
  ⟨((C10_empty_string_fields [] none emptyUsernameForm .ok false
      { username := some "erin", password := some "" }).1 (Or.inl rfl)).1,
   ((C10_empty_string_fields [] none emptyPasswordForm .ok false
      { username := some "erin", password := some "" }).2.1 rfl rfl rfl rfl).1,
   ((C10_empty_string_fields [] none emptyPasswordForm .ok false
      { username := some "erin", password := some "" }).2.2 rfl).1⟩

end HouseOfPlants
